import Mathlib

/-!
Verification of the MPCORB fixed-width record decoder of this repository
(`src/backend/datapipe/mpc_data_fetcher.py`, with the packed-epoch scheme of the
specification, §4.3). The Python functions are shallowly embedded: strings are
`String`, Python `float`/`int` values are modelled exactly as `ℚ`/`ℤ` (the
decimal grammars are parsed exactly, no rounding), `None` is `Option.none`.
-/

set_option maxRecDepth 20000

namespace MPC

/-- ASCII whitespace as stripped by Python `str.strip()` and split by `str.split()`
(space, tab, newline, carriage return, form feed, vertical tab; the MPCORB data is
ASCII, so the additional Unicode whitespace accepted by Python cannot occur). -/
def isPyWs (c : Char) : Bool :=
  c == ' ' || c == '\t' || c == '\n' || c == '\x0d' || c == '\x0c' || c == '\x0b'

/-- Python `str.strip()` with no argument: remove leading and trailing whitespace. -/
def pyStrip (s : String) : String :=
  ⟨((s.data.dropWhile isPyWs).reverse.dropWhile isPyWs).reverse⟩

/-- Whether a character is `'\r'` or `'\n'` (the strip set of `strip("\r\n")`). -/
def isCRLF (c : Char) : Bool :=
  c == '\x0d' || c == '\n'

/-- Python `str.strip("\r\n")`: remove leading and trailing CR/LF characters only. -/
def stripCRLF (s : String) : String :=
  ⟨((s.data.dropWhile isCRLF).reverse.dropWhile isCRLF).reverse⟩

/-- Python `str.rstrip("\r\n")`: remove trailing CR/LF characters only. -/
def rstripCRLF (s : String) : String :=
  ⟨(s.data.reverse.dropWhile isCRLF).reverse⟩

/-- Python slicing `s[a:b]` for `a ≤ b`: characters at positions `[a, b)`,
clamped to the string — slicing never raises. -/
def pySlice (s : String) (a b : Nat) : String :=
  ⟨(s.data.drop a).take (b - a)⟩

/-- Numeric value of a list of decimal digit characters. -/
def natOfDigits (l : List Char) : Nat :=
  l.foldl (fun acc c => 10 * acc + (c.toNat - 48)) 0

/-- A nonempty all-digit run parsed as a natural number, `none` otherwise. -/
def parseUInt? (l : List Char) : Option Nat :=
  if l.isEmpty then none
  else if l.all Char.isDigit then some (natOfDigits l) else none

/-- The decimal mantissa grammar accepted by Python `float()`: `digits`,
`digits.digits?` or `.digits` (at least one digit overall). Returns the digit
string's value together with the number of fractional digits, so
`"3.34"` yields `(334, 2)`, meaning `334 / 10 ^ 2`. -/
def parseMantissa? (l : List Char) : Option (ℕ × ℕ) :=
  let intPart := l.takeWhile Char.isDigit
  match l.drop intPart.length with
  | [] => if intPart.isEmpty then none else some (natOfDigits intPart, 0)
  | '.' :: fracPart =>
      if fracPart.all Char.isDigit ∧ ¬(intPart.isEmpty ∧ fracPart.isEmpty) then
        some (natOfDigits (intPart ++ fracPart), fracPart.length)
      else none
  | _ => none

/-- An optionally signed nonempty digit run as an integer (the exponent grammar). -/
def parseExp? (l : List Char) : Option ℤ :=
  match l with
  | '+' :: rest => (parseUInt? rest).map (fun n => (n : ℤ))
  | '-' :: rest => (parseUInt? rest).map (fun n => -(n : ℤ))
  | _ => (parseUInt? l).map (fun n => (n : ℤ))

/-- The rational value `±(n0 * 10 ^ e) / 10 ^ s` of a parsed decimal with digit
value `n0`, `s` fractional digits and exponent `e`, written as one integer
quotient (`Rat.divInt`) so that it evaluates by machine integer arithmetic. -/
def decValue (sign : Bool) (n0 : ℕ) (s : ℕ) (e : ℤ) : ℚ :=
  let num : ℤ := (n0 : ℤ) * ((10 ^ e.toNat : ℕ) : ℤ)
  Rat.divInt (if sign then -num else num) ((10 ^ (s + (-e).toNat) : ℕ) : ℤ)

/-- Exact-rational model of Python `float()` on a string: strip whitespace, then
an optionally signed decimal mantissa with an optional `e`/`E` exponent.
(Python additionally accepts `inf`/`nan` spellings and `_` digit separators;
neither occurs in MPCORB column data and both would be rejected here.) -/
def parsePyFloat? (s : String) : Option ℚ :=
  let l := (pyStrip s).data
  let signedBody : Bool × List Char :=
    match l with
    | '+' :: rest => (false, rest)
    | '-' :: rest => (true, rest)
    | _ => (false, l)
  let body := signedBody.2
  match body.findIdx? (fun c => c == 'e' || c == 'E') with
  | none => (parseMantissa? body).map (fun p => decValue signedBody.1 p.1 p.2 0)
  | some i =>
      match parseMantissa? (body.take i), parseExp? (body.drop (i + 1)) with
      | some p, some e => some (decValue signedBody.1 p.1 p.2 e)
      | _, _ => none

/-- Exact model of Python `int()` on a string: strip whitespace, optional sign,
then a nonempty digit run (`_` separators, which never occur here, are rejected). -/
def parsePyInt? (s : String) : Option ℤ :=
  match (pyStrip s).data with
  | [] => none
  | c :: rest =>
      if c == '+' then (parseUInt? rest).map (fun n => (n : ℤ))
      else if c == '-' then (parseUInt? rest).map (fun n => -(n : ℤ))
      else (parseUInt? (c :: rest)).map (fun n => (n : ℤ))

/-- `try_parse_float` from `mpc_data_fetcher.py`: `float(slice_text.strip())`
with every exception caught and turned into `None`. -/
def try_parse_float (slice_text : String) : Option ℚ :=
  parsePyFloat? (pyStrip slice_text)

/-- `try_parse_int` from `mpc_data_fetcher.py`: `int(slice_text.strip())`
with every exception caught and turned into `None`. -/
def try_parse_int (slice_text : String) : Option ℤ :=
  parsePyInt? (pyStrip slice_text)

/-- `extract_packed_designation` from `mpc_data_fetcher.py`:
`if not line or len(line) < 170: return None` then `line[166:194].strip() or None`. -/
def extract_packed_designation (line : String) : Option String :=
  if line = "" || line.length < 170 then none
  else
    let d := pyStrip (pySlice line 166 194)
    if d = "" then none else some d

/-- Result of `extract_basic_fields`: `(packed_desig, raw_line, h, g)`. -/
structure BasicFields where
  packed_desig : Option String
  raw : String
  h : Option ℚ
  g : Option ℚ
deriving DecidableEq

/-- `extract_basic_fields` from `mpc_data_fetcher.py`: `h`/`g` parsed from columns
`[8,13)` and `[14,19)` under the shared guard `len(line) >= 19`; the returned raw
line is `line.rstrip("\r\n")`. -/
def extract_basic_fields (line : String) : BasicFields :=
  let hg : Option ℚ × Option ℚ :=
    if 19 ≤ line.length then
      (try_parse_float (pySlice line 8 13), try_parse_float (pySlice line 14 19))
    else (none, none)
  ⟨extract_packed_designation line, rstripCRLF line, hg.1, hg.2⟩

/-- Result record of `extract_orbital_elements`. -/
structure OrbitalElements where
  epoch_mjd : Option ℤ
  mean_anomaly_deg : Option ℚ
  arg_perihelion_deg : Option ℚ
  long_asc_node_deg : Option ℚ
  inclination_deg : Option ℚ
  eccentricity : Option ℚ
  mean_daily_motion_deg : Option ℚ
  semimajor_axis_au : Option ℚ
deriving DecidableEq

/-- `extract_orbital_elements` from `mpc_data_fetcher.py`: each field parsed from
its own column range, guarded by its own `len(line) >= end` check. -/
def extract_orbital_elements (line : String) : OrbitalElements where
  epoch_mjd := if 25 ≤ line.length then try_parse_int (pySlice line 20 25) else none
  mean_anomaly_deg := if 35 ≤ line.length then try_parse_float (pySlice line 26 35) else none
  arg_perihelion_deg := if 46 ≤ line.length then try_parse_float (pySlice line 37 46) else none
  long_asc_node_deg := if 57 ≤ line.length then try_parse_float (pySlice line 48 57) else none
  inclination_deg := if 68 ≤ line.length then try_parse_float (pySlice line 59 68) else none
  eccentricity := if 79 ≤ line.length then try_parse_float (pySlice line 70 79) else none
  mean_daily_motion_deg := if 91 ≤ line.length then try_parse_float (pySlice line 80 91) else none
  semimajor_axis_au := if 103 ≤ line.length then try_parse_float (pySlice line 92 103) else none

/-- Python `" ".join(s.split())`: collapse every whitespace run to a single space
and drop leading/trailing whitespace. `splitWords` is `str.split()` on char lists. -/
def splitWords : List Char → List Char → List (List Char)
  | [], acc => if acc.isEmpty then [] else [acc.reverse]
  | c :: cs, acc =>
      if isPyWs c then
        if acc.isEmpty then splitWords cs [] else acc.reverse :: splitWords cs []
      else splitWords cs (c :: acc)

/-- Whitespace normalization `" ".join(s.split())` applied by
`parse_readable_designation` before the regular expressions are tried. -/
def normalizeWs (s : String) : String :=
  ⟨List.intercalate [' '] (splitWords s.data [])⟩

/-- Python ASCII uppercase test, the `[A-Z]` character class. -/
def isUpperAZ (c : Char) : Bool :=
  'A' ≤ c && c ≤ 'Z'

/-- The tail `\d{0,4}[A-Z]?$` of the provisional code: up to four digits then an
optional capital, consuming the whole input. Longer digit runs fail even after
backtracking, because the leftover digit matches neither `[A-Z]?` nor the end. -/
def provTail (l : List Char) : Bool :=
  let ds := l.takeWhile Char.isDigit
  let r := l.drop ds.length
  decide (ds.length ≤ 4) && (r.isEmpty || (decide (r.length = 1) && r.all isUpperAZ))

/-- The code part `[A-Z]{1,2}\d{0,4}[A-Z]?$` of `_PROV_RE`: one or two capitals
then `provTail`; both quantifier choices are tried, matching the regex's
existential backtracking semantics (only the boolean outcome is used). -/
def provCode (l : List Char) : Bool :=
  match l with
  | [] => false
  | [c1] => isUpperAZ c1 && provTail []
  | c1 :: c2 :: rest =>
      isUpperAZ c1 && ((isUpperAZ c2 && provTail rest) || provTail (c2 :: rest))

/-- `_PROV_RE = ^(\d{4})\s+([A-Z]{1,2}\d{0,4}[A-Z]?)$` as a match test. The
input is always the whitespace-normalized designation, which contains no
newline and no trailing whitespace, so greedy matching needs no backtracking:
after `\d{4}` the next character must be whitespace, and the code part begins
with a capital, so the `\s+` run is exactly the maximal whitespace run. -/
def matchProv (l : List Char) : Bool :=
  let ys := l.take 4
  if decide (ys.length = 4) && ys.all Char.isDigit then
    let r := l.drop 4
    let ws := r.takeWhile isPyWs
    if ws.isEmpty then false else provCode (r.drop ws.length)
  else false

/-- `_NUMBERED_RE = ^\(?(\d+)\)?\s+(.+)$` as a matcher returning the `num` and
`name` capture groups. The input is always the whitespace-normalized
designation (no newline, no trailing whitespace), so the greedy left-to-right
match is exact: if a consumed `(` or `)` later causes failure, the regex engine
would retry without it only to fail immediately (`\d+` cannot match `(`, `\s+`
cannot match `)` or a digit), and `\s+` never has to cede characters to `(.+)`
because the normalized input does not end in whitespace. -/
def matchNumberedTail (l1 : List Char) : Option (List Char × List Char) :=
  let ds := l1.takeWhile Char.isDigit
  if ds.isEmpty then none
  else
    let r1 := l1.drop ds.length
    let r2 := if r1.head? = some ')' then r1.tail else r1
    let ws := r2.takeWhile isPyWs
    if ws.isEmpty then none
    else
      let nm := r2.drop ws.length
      if nm.isEmpty then none else some (ds, nm)

def matchNumbered (l : List Char) : Option (List Char × List Char) :=
  matchNumberedTail (if l.head? = some '(' then l.tail else l)

/-- Result record of `parse_readable_designation`. -/
structure ParsedDesignation where
  mp_number : Option ℤ
  prov_desig : Option String
  name : Option String
  object_id : Option ℤ
deriving DecidableEq

/-- The display-name normalization of the numbered branch:
`name = m.group("name").strip()`, then if it starts with `)` and has length
greater than one, `name = name[1:].strip()`. -/
def normalizeName (nameCs : List Char) : String :=
  let nm0 := pyStrip ⟨nameCs⟩
  match nm0.data with
  | ')' :: c :: cs => pyStrip ⟨c :: cs⟩
  | _ => nm0

/-- `parse_readable_designation` from `mpc_data_fetcher.py`. The `isdigit()`
test on the `num` group is kept as in the source even though the group is a
nonempty `\d+` run and the test therefore always succeeds when the match does. -/
def parse_readable_designation (readable : String) : ParsedDesignation :=
  let s := normalizeWs readable
  if s = "" then ⟨none, none, none, none⟩
  else
    match matchNumbered s.data with
    | some (ds, nameCs) =>
        if !ds.isEmpty && ds.all Char.isDigit then
          let mp_number : ℤ := (natOfDigits ds : ℤ)
          ⟨some mp_number, none, some (normalizeName nameCs), some mp_number⟩
        else if matchProv s.data then ⟨none, some s, some s, none⟩
        else ⟨none, none, some s, none⟩
    | none =>
        if matchProv s.data then ⟨none, some s, some s, none⟩
        else ⟨none, none, some s, none⟩

/-- `is_data_line` from `mpc_data_fetcher.py`: reject the empty line, lines that
are empty after `strip("\r\n")`, lines starting with `#` or `---`, and lines of
stripped length at most 40. -/
def is_data_line (line : String) : Bool :=
  if line = "" then false
  else
    let s := stripCRLF line
    if s = "" then false
    else
      match s.data with
      | '#' :: _ => false
      | '-' :: '-' :: '-' :: _ => false
      | _ => decide (40 < s.length)

/-- A row of the upsert buffer built by `main`. -/
structure Row where
  db_object_id : String
  mp_number : Option ℤ
  prov_desig : Option String
  name : String
  packed_desig : Option String
  raw : String
  h : Option ℚ
  g : Option ℚ
  epoch_mjd : Option ℤ
  mean_anomaly_deg : Option ℚ
  arg_perihelion_deg : Option ℚ
  long_asc_node_deg : Option ℚ
  inclination_deg : Option ℚ
  eccentricity : Option ℚ
  mean_daily_motion_deg : Option ℚ
  semimajor_axis_au : Option ℚ
deriving DecidableEq

/-- Python `a or b` on optional strings: `a` unless it is `None` or empty. -/
def pyOrStr (a b : Option String) : Option String :=
  match a with
  | some s => if s = "" then b else some s
  | none => b

/-- The per-line body of the ingestion loop in `main`: classifier, field
extraction, designation resolution, the stable-key choice
`str(object_id) if object_id is not None else (prov_desig or name)`, and the
`if not db_object_id or not name: continue` skip. Returns the buffered row, or
`none` when the line is skipped. -/
def processLine (line : String) : Option Row :=
  if is_data_line line then
    let bf := extract_basic_fields line
    let parsed := parse_readable_designation (bf.packed_desig.getD "")
    let db_object_id : Option String :=
      match parsed.object_id with
      | some n => some (toString n)
      | none => pyOrStr parsed.prov_desig parsed.name
    match db_object_id, parsed.name with
    | some oid, some nm =>
        if oid = "" ∨ nm = "" then none
        else
          let e := extract_orbital_elements line
          some ⟨oid, parsed.mp_number, parsed.prov_desig, nm, bf.packed_desig, bf.raw,
                bf.h, bf.g, e.epoch_mjd, e.mean_anomaly_deg, e.arg_perihelion_deg,
                e.long_asc_node_deg, e.inclination_deg, e.eccentricity,
                e.mean_daily_motion_deg, e.semimajor_axis_au⟩
    | _, _ => none
  else none

/-- The sample MPCORB record for (1) Ceres given in the specification (§8). -/
def ceresLine : String :=
  "00001    3.34  0.12 K2071  93.55478   72.59533   80.39109   10.58820  0.0791849  0.21418417   2.7652664  0 MPO903731  7258  94 1802-2023 0.59 M-v 30h MPCW       0000      (1) Ceres              20230613"

/-- Modelled from the spec (§4.3): the century marker of a packed epoch code —
`I`→1800, `J`→1900, `K`→2000, `L`→2100; anything else is invalid. No packed-epoch
decoder exists under `src/` (`extract_orbital_elements` merely int-parses the
epoch column and `parse_mpcorb_dat` stores the raw five-character code). -/
def centuryBase (c : Char) : Option ℕ :=
  match c with
  | 'I' => some 1800
  | 'J' => some 1900
  | 'K' => some 2000
  | 'L' => some 2100
  | _ => none

/-- Modelled from the spec (§4.3): the digit-or-letter scheme for the month and
day characters — digits map directly, capitals map to `10 + position from A`. -/
def monthDayCode (c : Char) : Option ℕ :=
  if c.isDigit then some (c.toNat - 48)
  else if isUpperAZ c then some (c.toNat - 65 + 10)
  else none

/-- The standard civil-calendar-to-Julian-Day-Number integer formula (proleptic
Gregorian, noon-based), as named by the spec (§4.3). All intermediate values are
nonnegative for the years 1800–2199 produced by the century markers. -/
def jdnOfDate (y m d : ℕ) : ℕ :=
  let a := (14 - m) / 12
  let y' := y + 4800 - a
  let m' := m + 12 * a - 3
  d + (153 * m' + 2) / 5 + 365 * y' + y' / 4 - y' / 100 + y' / 400 - 32045

/-- Modelled from the spec (§4.3): `decode_packed_epoch` — absent from `src/` —
decodes a five-character packed epoch to a Modified Julian Date:
century marker, two year digits, digit-or-letter month (1–12) and day (1–31);
the JDN at noon minus 0.5 gives the JD at 0h, and MJD = JD − 2400000.5, hence
the integer value JDN − 2400001 (written as an integer quotient so it computes).
Any invalid marker, out-of-range month or day, or wrong-length input is `none`. -/
def decode_packed_epoch (code : String) : Option ℚ :=
  match code.data with
  | [c0, c1, c2, c3, c4] =>
      match centuryBase c0 with
      | none => none
      | some base =>
          if c1.isDigit && c2.isDigit then
            let y := base + 10 * (c1.toNat - 48) + (c2.toNat - 48)
            match monthDayCode c3, monthDayCode c4 with
            | some m, some d =>
                if 1 ≤ m ∧ m ≤ 12 ∧ 1 ≤ d ∧ d ≤ 31 then
                  some (Rat.divInt ((jdnOfDate y m d : ℤ) - 2400001) 1)
                else none
            | _, _ => none
          else none
  | _ => none

/-- The exception-aware semantics of Python `float(s)`: a parse failure raises
`ValueError` instead of returning a value. Used to show no exception escapes. -/
def floatE (s : String) : Except String ℚ :=
  match parsePyFloat? s with
  | some q => Except.ok q
  | none => Except.error ("ValueError")

/-- The exception-aware semantics of Python `int(s)`. -/
def intE (s : String) : Except String ℤ :=
  match parsePyInt? s with
  | some n => Except.ok n
  | none => Except.error ("ValueError")

/-- `try_parse_float` with the `try`/`except` modelled explicitly: the `float()`
call may raise, and the handler converts any error into `None`. -/
def try_parse_floatE (slice_text : String) : Except String (Option ℚ) :=
  match floatE (pyStrip slice_text) with
  | Except.ok v => Except.ok (some v)
  | Except.error _ => Except.ok none

/-- `try_parse_int` with the `try`/`except` modelled explicitly. -/
def try_parse_intE (slice_text : String) : Except String (Option ℤ) :=
  match intE (pyStrip slice_text) with
  | Except.ok v => Except.ok (some v)
  | Except.error _ => Except.ok none

/-- `is_data_line` in the exception-aware semantics: the function contains no
raising operation (string tests and slicing never raise in Python). -/
def is_data_lineE (line : String) : Except String Bool :=
  Except.ok (is_data_line line)

/-- `extract_basic_fields` in the exception-aware semantics: any uncaught
exception of the two guarded parses would surface as `Except.error`. -/
def extract_basic_fieldsE (line : String) : Except String BasicFields :=
  if 19 ≤ line.length then do
    let h ← try_parse_floatE (pySlice line 8 13)
    let g ← try_parse_floatE (pySlice line 14 19)
    Except.ok ⟨extract_packed_designation line, rstripCRLF line, h, g⟩
  else Except.ok ⟨extract_packed_designation line, rstripCRLF line, none, none⟩

/-- `extract_orbital_elements` in the exception-aware semantics, written with
explicit sequencing: each guarded parse runs in order and any error propagates. -/
def extract_orbital_elementsE (line : String) : Except String OrbitalElements :=
  Except.bind (if 25 ≤ line.length then try_parse_intE (pySlice line 20 25) else Except.ok none)
    (fun ep =>
  Except.bind (if 35 ≤ line.length then try_parse_floatE (pySlice line 26 35) else Except.ok none)
    (fun ma =>
  Except.bind (if 46 ≤ line.length then try_parse_floatE (pySlice line 37 46) else Except.ok none)
    (fun ap =>
  Except.bind (if 57 ≤ line.length then try_parse_floatE (pySlice line 48 57) else Except.ok none)
    (fun om =>
  Except.bind (if 68 ≤ line.length then try_parse_floatE (pySlice line 59 68) else Except.ok none)
    (fun inc =>
  Except.bind (if 79 ≤ line.length then try_parse_floatE (pySlice line 70 79) else Except.ok none)
    (fun ecc =>
  Except.bind (if 91 ≤ line.length then try_parse_floatE (pySlice line 80 91) else Except.ok none)
    (fun mdm =>
  Except.bind (if 103 ≤ line.length then try_parse_floatE (pySlice line 92 103) else Except.ok none)
    (fun sma =>
  Except.ok ⟨ep, ma, ap, om, inc, ecc, mdm, sma⟩))))))))

/-- `parse_readable_designation` in the exception-aware semantics. The
`int(m.group("num"))` call of the numbered branch is *not* wrapped in a
`try`; it would propagate a `ValueError` if the matched group were not a valid
integer literal, so its success is a genuine proof obligation. -/
def parse_readable_designationE (readable : String) : Except String ParsedDesignation :=
  let s := normalizeWs readable
  if s = "" then Except.ok ⟨none, none, none, none⟩
  else
    match matchNumbered s.data with
    | some (ds, nameCs) =>
        if !ds.isEmpty && ds.all Char.isDigit then
          Except.bind (intE ⟨ds⟩) (fun mp_number =>
            Except.ok ⟨some mp_number, none, some (normalizeName nameCs), some mp_number⟩)
        else if matchProv s.data then Except.ok ⟨none, some s, some s, none⟩
        else Except.ok ⟨none, none, some s, none⟩
    | none =>
        if matchProv s.data then Except.ok ⟨none, some s, some s, none⟩
        else Except.ok ⟨none, none, some s, none⟩

/-- Modelled from the spec (§3): the resolved identity of a catalog record — a
tagged variant, not a nullable field. -/
inductive Identity where
  | numbered (n : ℕ)
  | provisional (designation : String)
  | unresolved
deriving DecidableEq

/-- Modelled from the spec (§6): a record at the sink boundary, carrying its
resolved identity and display name. -/
structure SinkRecord where
  identity : Identity
  display_name : String
deriving DecidableEq

/-- Modelled from the spec (§6): the `include_provisional` sink-policy flag —
when false, records with `Provisional` identity are dropped before the sink
boundary (the numbered-only ingestion mode of pipeline variants not vendored
under `src/`). -/
def applySinkPolicy (include_provisional : Bool) (records : List SinkRecord) : List SinkRecord :=
  if include_provisional then records
  else records.filter (fun r =>
    match r.identity with
    | Identity.provisional _ => false
    | _ => true)

/-! Helper lemmas about the list primitives of the embedding. -/

theorem drop_length_takeWhile (p : Char → Bool) (l : List Char) :
    l.drop (l.takeWhile p).length = l.dropWhile p := by
  induction l with
  | nil => rfl
  | cons c cs ih =>
      by_cases h : p c
      · simp [List.takeWhile_cons, List.dropWhile_cons, h, ih]
      · simp [List.takeWhile_cons, List.dropWhile_cons, h]

theorem head?_dropWhile_false (p : Char → Bool) (l : List Char) :
    ∀ c, (l.dropWhile p).head? = some c → p c = false := by
  induction l with
  | nil => intro c h; simp at h
  | cons a as ih =>
      intro c hc
      cases ha : p a with
      | true => exact ih c (by simpa [List.dropWhile_cons, ha] using hc)
      | false =>
          simp only [List.dropWhile_cons, ha, Bool.false_eq_true, if_false,
            List.head?_cons, Option.some.injEq] at hc
          rw [← hc]; exact ha

theorem dropWhile_eq_self_of_all_false (p : Char → Bool) (l : List Char)
    (h : ∀ c ∈ l, p c = false) : l.dropWhile p = l := by
  cases l with
  | nil => rfl
  | cons a as => simp [List.dropWhile_cons, h a (by simp)]

theorem isDigit_not_pyWs (c : Char) (h : c.isDigit = true) : isPyWs c = false := by
  cases hw : isPyWs c
  · rfl
  · exfalso
    unfold isPyWs at hw
    simp only [Bool.or_eq_true, beq_iff_eq] at hw
    rcases hw with ((((rfl | rfl) | rfl) | rfl) | rfl) | rfl <;> exact absurd h (by decide)

theorem pyStrip_digits (ds : List Char) (h : ds.all Char.isDigit = true) :
    pyStrip ⟨ds⟩ = ⟨ds⟩ := by
  have hall : ∀ c ∈ ds, isPyWs c = false := fun c hc =>
    isDigit_not_pyWs c (List.all_eq_true.mp h c hc)
  unfold pyStrip
  show (⟨((ds.dropWhile isPyWs).reverse.dropWhile isPyWs).reverse⟩ : String) = ⟨ds⟩
  rw [dropWhile_eq_self_of_all_false _ _ hall,
    dropWhile_eq_self_of_all_false _ _ (fun c hc => hall c (List.mem_reverse.mp hc)),
    List.reverse_reverse]

theorem parsePyInt_digits (ds : List Char) (hne : ds ≠ []) (h : ds.all Char.isDigit = true) :
    parsePyInt? ⟨ds⟩ = some ((natOfDigits ds : ℤ)) := by
  unfold parsePyInt?
  rw [pyStrip_digits ds h]
  cases ds with
  | nil => exact absurd rfl hne
  | cons c rest =>
      have hc : c.isDigit = true := List.all_eq_true.mp h c (by simp)
      have hplus : (c == '+') = false := by
        cases hcc : c == '+'
        · rfl
        · exact absurd (beq_iff_eq.mp hcc ▸ hc) (by decide)
      have hminus : (c == '-') = false := by
        cases hcc : c == '-'
        · rfl
        · exact absurd (beq_iff_eq.mp hcc ▸ hc) (by decide)
      show (if c == '+' then (parseUInt? rest).map (fun n => (n : ℤ))
        else if c == '-' then (parseUInt? rest).map (fun n => -(n : ℤ))
        else (parseUInt? (c :: rest)).map (fun n => (n : ℤ))) = some ((natOfDigits (c :: rest) : ℤ))
      rw [hplus, hminus]
      simp only [Bool.false_eq_true, if_false]
      unfold parseUInt?
      rw [if_neg (by simp), if_pos h]
      rfl

theorem intE_digits (ds : List Char) (hne : ds ≠ []) (h : ds.all Char.isDigit = true) :
    intE ⟨ds⟩ = Except.ok ((natOfDigits ds : ℤ)) := by
  unfold intE
  rw [parsePyInt_digits ds hne h]

theorem matchNumberedTail_sound (l1 ds nm : List Char)
    (h : matchNumberedTail l1 = some (ds, nm)) :
    ds ≠ [] ∧ ds.all Char.isDigit = true ∧
      l1 = ds ++ l1.dropWhile Char.isDigit ∧
      (∀ c, (l1.dropWhile Char.isDigit).head? = some c → c.isDigit = false) := by
  have hds : ds = l1.takeWhile Char.isDigit ∧ (l1.takeWhile Char.isDigit).isEmpty = false := by
    simp only [matchNumberedTail] at h
    by_cases h1 : (l1.takeWhile Char.isDigit).isEmpty = true
    · rw [if_pos h1] at h
      exact absurd h (by simp)
    · rw [if_neg h1] at h
      refine ⟨?_, by simpa using h1⟩
      repeat' split at h
      all_goals first
        | (injection h with hpair; injection hpair with hds hnm; exact hds.symm)
        | injection h
  obtain ⟨rfl, hne⟩ := hds
  refine ⟨?_, List.all_takeWhile, ?_, head?_dropWhile_false Char.isDigit l1⟩
  · intro heq
    rw [heq] at hne
    simp at hne
  · exact (List.takeWhile_append_dropWhile (p := Char.isDigit) (l := l1)).symm

theorem matchNumbered_sound (l ds nm : List Char)
    (h : matchNumbered l = some (ds, nm)) :
    ds ≠ [] ∧ ds.all Char.isDigit = true ∧
    ∃ rest, (l = ds ++ rest ∨ l = '(' :: (ds ++ rest)) ∧
      ∀ c, rest.head? = some c → c.isDigit = false := by
  unfold matchNumbered at h
  by_cases hp : l.head? = some '('
  · rw [if_pos hp] at h
    obtain ⟨h1, h2, h3, h4⟩ := matchNumberedTail_sound _ ds nm h
    refine ⟨h1, h2, l.tail.dropWhile Char.isDigit, ?_, h4⟩
    right
    cases l with
    | nil => simp at hp
    | cons a as =>
        simp only [List.head?_cons, Option.some.injEq] at hp
        rw [hp]
        simpa using h3
  · rw [if_neg hp] at h
    obtain ⟨h1, h2, h3, h4⟩ := matchNumberedTail_sound _ ds nm h
    exact ⟨h1, h2, l.dropWhile Char.isDigit, Or.inl h3, h4⟩

/-! Theorems settling the claims. -/

/-- C2: the code contradicts the claim (and its own docstring): a designation
matching the provisional grammar is resolved as *numbered*, because
`_NUMBERED_RE` is tried first and `^\(?(\d+)\)?\s+(.+)$` already matches
`year + space + code`. "2014 OD436" yields number 2014 and name "OD436"
(never a provisional identity), and the docstring's own example "1998 KD3"
yields number 1998 instead of the documented `provisional="1998 KD3"`. -/
theorem provisional_grammar_resolved_as_numbered :
    matchProv (normalizeWs ("2014 OD436")).data = true ∧
    parse_readable_designation ("2014 OD436")
      = ⟨some 2014, none, some ("OD436"), some 2014⟩ ∧
    parse_readable_designation ("1998 KD3")
      = ⟨some 1998, none, some ("KD3"), some 1998⟩ := by
  decide

/-- C5 counterexample: "1 (a" matches the numbered grammar, and the resolver
returns display name "(a" — a display name with a leading parenthesis, refuting
the claim that the display name never contains a leading `(`. -/
theorem numbered_display_name_paren_cex :
    parse_readable_designation ("1 (a") = ⟨some 1, none, some ("(a"), some 1⟩ ∧
    ("(a").data.head? = some '(' := by
  decide

/-- C4 counterexample: on a 15-character line, the h-magnitude column `[8,13)`
is fully in bounds and parseable ("13.44"), but the shared `len(line) >= 19`
guard of `extract_basic_fields` nulls it because the *slope* column `[14,19)`
is out of bounds — refuting per-field independence for the photometry pair. -/
theorem photometry_shared_guard_cex :
    ("xxxxxxxx13.44zz").length = 15 ∧
    try_parse_float (pySlice ("xxxxxxxx13.44zz") 8 13) = some (Rat.divInt 1344 100) ∧
    (extract_basic_fields ("xxxxxxxx13.44zz")).h = none ∧
    (extract_basic_fields ("xxxxxxxx13.44zz")).g = none := by
  decide

/-- C6: evaluation on the spec's Ceres record. Identity, display name,
eccentricity and semimajor axis decode exactly as claimed, but `epoch_mjd` is
`None`: the code int-parses the packed epoch column "K2071" (always
letter-initial), which necessarily fails, while the intended decoding of
"K2071" is MJD 59031 (2020-07-01). -/
theorem ceres_record_decode :
    parse_readable_designation ((extract_basic_fields ceresLine).packed_desig.getD "")
      = ⟨some 1, none, some ("Ceres"), some 1⟩ ∧
    (extract_orbital_elements ceresLine).eccentricity = some (Rat.divInt 791849 10000000) ∧
    (extract_orbital_elements ceresLine).semimajor_axis_au = some (Rat.divInt 27652664 10000000) ∧
    pySlice ceresLine 20 25 = ("K2071") ∧
    (extract_orbital_elements ceresLine).epoch_mjd = none ∧
    decode_packed_epoch ("K2071") = some (Rat.divInt 59031 1) := by
  decide

/-- C5 amended: for every designation whose normalization the numbered regex
matches, the resolver returns `Numbered(n)` with `n` the value of the maximal
leading digit run (after an optional `(`) — the leading integer — and the
display name is the matched remainder with a stray leading `)` and surrounding
whitespace stripped. The remainder may itself begin with `(` or digits, so the
claim's "never a leading `(` or digit prefix" holds only when the remainder
does not carry one (see the counterexample). -/
theorem numbered_resolution_leading_integer :
    ∀ (s : String) (ds nameCs : List Char),
      matchNumbered (normalizeWs s).data = some (ds, nameCs) →
      parse_readable_designation s
        = ⟨some ((natOfDigits ds : ℤ)), none, some (normalizeName nameCs),
            some ((natOfDigits ds : ℤ))⟩ ∧
      ds ≠ [] ∧ ds.all Char.isDigit = true ∧
      ∃ rest, ((normalizeWs s).data = ds ++ rest ∨ (normalizeWs s).data = '(' :: (ds ++ rest)) ∧
        ∀ c, rest.head? = some c → c.isDigit = false := by
  intro s ds nameCs h
  obtain ⟨h1, h2, h3⟩ := matchNumbered_sound _ _ _ h
  refine ⟨?_, h1, h2, h3⟩
  have hsne : ¬(normalizeWs s = "") := by
    intro heq
    rw [heq] at h
    have hnone : matchNumbered ("" : String).data = none := by decide
    rw [hnone] at h
    exact Option.noConfusion h
  have hguard : (!ds.isEmpty && ds.all Char.isDigit) = true := by
    cases ds with
    | nil => exact absurd rfl h1
    | cons a as => simpa using h2
  simp only [parse_readable_designation]
  rw [if_neg hsne, h]
  simp only [hguard, if_true]

/-- C5 amended, witness: the theorem applied to the canonical form
"(1) Ceres", whose match has digits `['1']` and remainder `Ceres`. -/
theorem numbered_resolution_leading_integer_witness :
    parse_readable_designation ("(1) Ceres") = ⟨some 1, none, some ("Ceres"), some 1⟩ := by
  have h := (numbered_resolution_leading_integer ("(1) Ceres") ['1']
    ['C', 'e', 'r', 'e', 's'] (by decide)).1
  rw [h]
  decide

/-- C1 (spec-modelled): for every five-character packed epoch whose century
marker is one of `I`/`J`/`K`/`L` and whose month and day codes decode in range,
`decode_packed_epoch` returns the Modified Julian Date of the encoded calendar
date via the civil-calendar-to-JDN formula (MJD = JDN − 2400001, i.e.
JD − 2400000.5 at 0h); in particular "K134I" decodes to the MJD of
2013 April 18 — the value 56400 — within 1e-4 days. -/
theorem decode_packed_epoch_valid_mjd :
    (∀ (c0 c1 c2 c3 c4 : Char) (base m d : ℕ),
      centuryBase c0 = some base →
      c1.isDigit = true → c2.isDigit = true →
      monthDayCode c3 = some m → 1 ≤ m → m ≤ 12 →
      monthDayCode c4 = some d → 1 ≤ d → d ≤ 31 →
      decode_packed_epoch ⟨[c0, c1, c2, c3, c4]⟩
        = some (Rat.divInt
            ((jdnOfDate (base + 10 * (c1.toNat - 48) + (c2.toNat - 48)) m d : ℤ) - 2400001) 1)) ∧
    decode_packed_epoch ("K134I")
      = some (Rat.divInt ((jdnOfDate 2013 4 18 : ℤ) - 2400001) 1) ∧
    |Rat.divInt ((jdnOfDate 2013 4 18 : ℤ) - 2400001) 1 - 56400| < 1 / 10000 := by
  refine ⟨?_, by decide, ?_⟩
  · intro c0 c1 c2 c3 c4 base m d hc hd1 hd2 hm hm1 hm2 hd hdy1 hdy2
    have hdata : (⟨[c0, c1, c2, c3, c4]⟩ : String).data = [c0, c1, c2, c3, c4] := rfl
    simp only [decode_packed_epoch, hdata]
    rw [hc, hd1, hd2, hm, hd]
    simp only [Bool.and_self, if_true]
    rw [if_pos ⟨hm1, hm2, hdy1, hdy2⟩]
  · have hj : jdnOfDate 2013 4 18 = 2456401 := by decide
    rw [hj, Rat.divInt_eq_div]
    push_cast
    norm_num

/-- C1 witness: the universal part applied to the concrete code "K134I"
(century `K`, year 13, month `4`, day `I` = 18). -/
theorem decode_packed_epoch_valid_mjd_witness :
    decode_packed_epoch ⟨['K', '1', '3', '4', 'I']⟩
      = some (Rat.divInt
          ((jdnOfDate (2000 + 10 * (('1').toNat - 48) + (('3').toNat - 48)) 4 18 : ℤ)
            - 2400001) 1) :=
  decode_packed_epoch_valid_mjd.1 'K' '1' '3' '4' 'I' 2000 4 18 (by decide) (by decide)
    (by decide) (by decide) (by decide) (by decide) (by decide) (by decide) (by decide)

/-- C7 (spec-modelled): with `include_provisional = false`, the sink-policy
filter drops every record with `Provisional` identity before the sink boundary
and still delivers every record with `Numbered` identity. -/
theorem sink_policy_numbered_only :
    ∀ (rs : List SinkRecord) (r : SinkRecord),
      (r ∈ applySinkPolicy false rs → ∀ d, r.identity ≠ Identity.provisional d) ∧
      (r ∈ rs → ∀ n, r.identity = Identity.numbered n → r ∈ applySinkPolicy false rs) := by
  intro rs r
  constructor
  · intro hmem d heq
    unfold applySinkPolicy at hmem
    rw [if_neg (by simp)] at hmem
    have hkeep := (List.mem_filter.mp hmem).2
    rw [heq] at hkeep
    simp at hkeep
  · intro hmem n heq
    unfold applySinkPolicy
    rw [if_neg (by simp)]
    exact List.mem_filter.mpr ⟨hmem, by rw [heq]⟩

/-- C7 witness: in a two-record batch, the numbered record (1) Ceres is
delivered by the `include_provisional = false` policy and is not provisional;
the theorem is applied at this concrete batch. -/
theorem sink_policy_numbered_only_witness :
    (⟨Identity.numbered 1, ("Ceres")⟩ : SinkRecord)
      ∈ applySinkPolicy false
          [⟨Identity.numbered 1, ("Ceres")⟩,
           ⟨Identity.provisional ("2014 OD436"), ("2014 OD436")⟩] ∧
    (∀ d, (⟨Identity.numbered 1, ("Ceres")⟩ : SinkRecord).identity
      ≠ Identity.provisional d) := by
  have hmem : (⟨Identity.numbered 1, ("Ceres")⟩ : SinkRecord)
      ∈ applySinkPolicy false
          [⟨Identity.numbered 1, ("Ceres")⟩,
           ⟨Identity.provisional ("2014 OD436"), ("2014 OD436")⟩] :=
    (sink_policy_numbered_only _ _).2 (List.mem_cons_self _ _) 1 rfl
  exact ⟨hmem, (sink_policy_numbered_only _ _).1 hmem⟩

theorem try_parse_floatE_ok (s : String) :
    try_parse_floatE s = Except.ok (try_parse_float s) := by
  unfold try_parse_floatE floatE try_parse_float
  cases hp : parsePyFloat? (pyStrip s) <;> simp [hp]

theorem try_parse_intE_ok (s : String) :
    try_parse_intE s = Except.ok (try_parse_int s) := by
  unfold try_parse_intE intE try_parse_int
  cases hp : parsePyInt? (pyStrip s) <;> simp [hp]

theorem ite_try_parse_floatE (c : Prop) [Decidable c] (s : String) :
    (if c then try_parse_floatE s else Except.ok none)
      = Except.ok (if c then try_parse_float s else none) := by
  split <;> simp [try_parse_floatE_ok]

theorem ite_try_parse_intE (c : Prop) [Decidable c] (s : String) :
    (if c then try_parse_intE s else Except.ok none)
      = Except.ok (if c then try_parse_int s else none) := by
  split <;> simp [try_parse_intE_ok]

/-- C8: every public core function — classifier, field extractors, designation
resolver — is total: in the exception-aware semantics, where `float()`/`int()`
raise and `try`/`except` recovers, every call returns `Except.ok` of the pure
result, for every input string (empty, truncated, or non-numeric included).
The unguarded `int(m.group("num"))` of the numbered branch succeeds because the
matched group is always a nonempty digit run. -/
theorem core_functions_never_raise :
    ∀ line s : String,
      is_data_lineE line = Except.ok (is_data_line line) ∧
      extract_basic_fieldsE line = Except.ok (extract_basic_fields line) ∧
      extract_orbital_elementsE line = Except.ok (extract_orbital_elements line) ∧
      parse_readable_designationE s = Except.ok (parse_readable_designation s) := by
  intro line s
  refine ⟨rfl, ?_, ?_, ?_⟩
  · unfold extract_basic_fieldsE extract_basic_fields
    by_cases h19 : 19 ≤ line.length
    · rw [if_pos h19, if_pos h19, try_parse_floatE_ok, try_parse_floatE_ok]
      rfl
    · rw [if_neg h19, if_neg h19]
  · unfold extract_orbital_elementsE extract_orbital_elements
    rw [ite_try_parse_intE, ite_try_parse_floatE, ite_try_parse_floatE,
      ite_try_parse_floatE, ite_try_parse_floatE, ite_try_parse_floatE,
      ite_try_parse_floatE, ite_try_parse_floatE]
    rfl
  · unfold parse_readable_designationE parse_readable_designation
    by_cases hs : normalizeWs s = ""
    · rw [if_pos hs, if_pos hs]
    · rw [if_neg hs, if_neg hs]
      cases hm : matchNumbered (normalizeWs s).data with
      | none => by_cases hp : matchProv (normalizeWs s).data = true <;> simp [hp]
      | some pair =>
          obtain ⟨ds, nameCs⟩ := pair
          by_cases hg : (!ds.isEmpty && ds.all Char.isDigit) = true
          · obtain ⟨hg1, hg2⟩ : (!ds.isEmpty) = true ∧ ds.all Char.isDigit = true := by
              simpa using hg
            have hne : ds ≠ [] := by
              cases ds with
              | nil => simp at hg1
              | cons a as => exact List.cons_ne_nil a as
            simp [hg, intE_digits ds hne hg2, Except.bind]
          · by_cases hp : matchProv (normalizeWs s).data = true <;> simp [hg, hp]

/-- C9 counterexample: a line of 41 spaces is whitespace-only, yet accepted by
`is_data_line` — `strip("\r\n")` removes only CR/LF, so the line survives the
emptiness test and its length 41 exceeds the threshold 40. -/
theorem whitespace_line_accepted_cex :
    is_data_line (String.mk (List.replicate 41 ' ')) = true ∧
    (String.mk (List.replicate 41 ' ')).data.all isPyWs = true := by
  decide

/-- C3 counterexample: a 170-character line whose designation column holds
"???" — a string matching neither the numbered nor the provisional grammar —
is *not* discarded: the fallback branch stores the whole string as display name
and key, and the record reaches the upsert buffer with no number and no
provisional key (an unresolved identity at the sink). -/
theorem unresolved_designation_reaches_sink_cex :
    matchNumbered (normalizeWs ("???")).data = none ∧
    matchProv (normalizeWs ("???")).data = false ∧
    processLine (String.mk (List.replicate 166 'x' ++ ['?', '?', '?', ' ']))
      = some ⟨("???"), none, none, ("???"), some ("???"),
          String.mk (List.replicate 166 'x' ++ ['?', '?', '?', ' ']),
          none, none, none, none, none, none, none, none, none, none⟩ := by
  decide

/-- C3 amended: a designation matching neither grammar is *not* discarded —
the fallback branch of the resolver keeps the whole normalized string as
display name (with no number and no provisional key) and the ingestion loop
buffers the record keyed by that name; the record is dropped only when the
designation normalizes to the empty string (blank or missing field). -/
theorem fallback_designation_resolution :
    ∀ line : String,
      is_data_line line = true →
      matchNumbered (normalizeWs ((extract_basic_fields line).packed_desig.getD "")).data
        = none →
      matchProv (normalizeWs ((extract_basic_fields line).packed_desig.getD "")).data
        = false →
      (normalizeWs ((extract_basic_fields line).packed_desig.getD "") = "" →
        processLine line = none) ∧
      (normalizeWs ((extract_basic_fields line).packed_desig.getD "") ≠ "" →
        ∃ r, processLine line = some r ∧
          r.name = normalizeWs ((extract_basic_fields line).packed_desig.getD "") ∧
          r.mp_number = none ∧ r.prov_desig = none ∧
          r.db_object_id = normalizeWs ((extract_basic_fields line).packed_desig.getD "")) := by
  intro line hline hmN hmP
  have hparse : parse_readable_designation ((extract_basic_fields line).packed_desig.getD "")
      = if normalizeWs ((extract_basic_fields line).packed_desig.getD "") = ""
        then ⟨none, none, none, none⟩
        else ⟨none, none,
          some (normalizeWs ((extract_basic_fields line).packed_desig.getD "")), none⟩ := by
    simp only [parse_readable_designation]
    by_cases hz : normalizeWs ((extract_basic_fields line).packed_desig.getD "") = ""
    · rw [if_pos hz, if_pos hz]
    · rw [if_neg hz, if_neg hz, hmN]
      simp [hmP]
  constructor
  · intro hz
    simp only [processLine, hparse, if_pos hz]
    rw [if_pos hline]
    simp [pyOrStr]
  · intro hz
    refine ⟨⟨normalizeWs ((extract_basic_fields line).packed_desig.getD ""), none, none,
      normalizeWs ((extract_basic_fields line).packed_desig.getD ""),
      (extract_basic_fields line).packed_desig, (extract_basic_fields line).raw,
      (extract_basic_fields line).h, (extract_basic_fields line).g,
      (extract_orbital_elements line).epoch_mjd,
      (extract_orbital_elements line).mean_anomaly_deg,
      (extract_orbital_elements line).arg_perihelion_deg,
      (extract_orbital_elements line).long_asc_node_deg,
      (extract_orbital_elements line).inclination_deg,
      (extract_orbital_elements line).eccentricity,
      (extract_orbital_elements line).mean_daily_motion_deg,
      (extract_orbital_elements line).semimajor_axis_au⟩, ?_, rfl, rfl, rfl, rfl⟩
    simp only [processLine, hparse, if_neg hz]
    rw [if_pos hline]
    simp [pyOrStr, hz]

/-- C10 (implicit invariant): a line shorter than 170 characters, or with a
blank designation column `[166,194)`, never produces a buffered record — and
conversely every buffered record comes from a line of length at least 170 with
a non-blank designation column, even though the classifier accepts any
non-comment line longer than 40 characters. -/
theorem buffered_record_needs_designation :
    ∀ line : String,
      ((line.length < 170 ∨ pyStrip (pySlice line 166 194) = "") →
        processLine line = none) ∧
      ((processLine line).isSome = true →
        170 ≤ line.length ∧ pyStrip (pySlice line 166 194) ≠ "") := by
  intro line
  have hp0 : parse_readable_designation ("") = ⟨none, none, none, none⟩ := by decide
  have hnone : extract_packed_designation line = none → processLine line = none := by
    intro hepd
    simp only [processLine, extract_basic_fields, hepd, Option.getD, hp0]
    simp [pyOrStr]
  constructor
  · intro h
    apply hnone
    rcases h with h | h
    · simp [extract_packed_designation, h]
    · simp [extract_packed_designation, h]
  · intro hs
    cases hepd : extract_packed_designation line with
    | none =>
        rw [hnone hepd] at hs
        simp at hs
    | some d =>
        unfold extract_packed_designation at hepd
        split at hepd
        · simp at hepd
        · rename_i hc
          have hepd' : (if pyStrip (pySlice line 166 194) = "" then none
              else some (pyStrip (pySlice line 166 194))) = some d := hepd
          split at hepd'
          · simp at hepd'
          · rename_i hne
            constructor
            · simp only [Bool.or_eq_true, decide_eq_true_eq, not_or] at hc
              omega
            · exact hne

/-- C4 amended: every orbital-element field has its own length guard and
depends only on its own column range (a failure in one column never disturbs
another field, and a line too short for one field nulls only that field) —
but the two photometry fields share one `len(line) >= 19` guard, so a line
shorter than 19 characters yields `None` for *both* even when the h-magnitude
range `[8,13)` is in bounds (see the counterexample); above that threshold each
photometry field likewise depends only on its own slice. -/
theorem field_extraction_independence :
    (∀ l : String, l.length < 19 →
      (extract_basic_fields l).h = none ∧ (extract_basic_fields l).g = none) ∧
    (∀ l₁ l₂ : String, 19 ≤ l₁.length → 19 ≤ l₂.length →
      pySlice l₁ 8 13 = pySlice l₂ 8 13 →
      (extract_basic_fields l₁).h = (extract_basic_fields l₂).h) ∧
    (∀ l₁ l₂ : String, 19 ≤ l₁.length → 19 ≤ l₂.length →
      pySlice l₁ 14 19 = pySlice l₂ 14 19 →
      (extract_basic_fields l₁).g = (extract_basic_fields l₂).g) ∧
    (∀ l : String, l.length < 25 → (extract_orbital_elements l).epoch_mjd = none) ∧
    (∀ l₁ l₂ : String, 25 ≤ l₁.length → 25 ≤ l₂.length →
      pySlice l₁ 20 25 = pySlice l₂ 20 25 →
      (extract_orbital_elements l₁).epoch_mjd = (extract_orbital_elements l₂).epoch_mjd) ∧
    (∀ l : String, l.length < 35 → (extract_orbital_elements l).mean_anomaly_deg = none) ∧
    (∀ l₁ l₂ : String, 35 ≤ l₁.length → 35 ≤ l₂.length →
      pySlice l₁ 26 35 = pySlice l₂ 26 35 →
      (extract_orbital_elements l₁).mean_anomaly_deg = (extract_orbital_elements l₂).mean_anomaly_deg) ∧
    (∀ l : String, l.length < 46 → (extract_orbital_elements l).arg_perihelion_deg = none) ∧
    (∀ l₁ l₂ : String, 46 ≤ l₁.length → 46 ≤ l₂.length →
      pySlice l₁ 37 46 = pySlice l₂ 37 46 →
      (extract_orbital_elements l₁).arg_perihelion_deg = (extract_orbital_elements l₂).arg_perihelion_deg) ∧
    (∀ l : String, l.length < 57 → (extract_orbital_elements l).long_asc_node_deg = none) ∧
    (∀ l₁ l₂ : String, 57 ≤ l₁.length → 57 ≤ l₂.length →
      pySlice l₁ 48 57 = pySlice l₂ 48 57 →
      (extract_orbital_elements l₁).long_asc_node_deg = (extract_orbital_elements l₂).long_asc_node_deg) ∧
    (∀ l : String, l.length < 68 → (extract_orbital_elements l).inclination_deg = none) ∧
    (∀ l₁ l₂ : String, 68 ≤ l₁.length → 68 ≤ l₂.length →
      pySlice l₁ 59 68 = pySlice l₂ 59 68 →
      (extract_orbital_elements l₁).inclination_deg = (extract_orbital_elements l₂).inclination_deg) ∧
    (∀ l : String, l.length < 79 → (extract_orbital_elements l).eccentricity = none) ∧
    (∀ l₁ l₂ : String, 79 ≤ l₁.length → 79 ≤ l₂.length →
      pySlice l₁ 70 79 = pySlice l₂ 70 79 →
      (extract_orbital_elements l₁).eccentricity = (extract_orbital_elements l₂).eccentricity) ∧
    (∀ l : String, l.length < 91 → (extract_orbital_elements l).mean_daily_motion_deg = none) ∧
    (∀ l₁ l₂ : String, 91 ≤ l₁.length → 91 ≤ l₂.length →
      pySlice l₁ 80 91 = pySlice l₂ 80 91 →
      (extract_orbital_elements l₁).mean_daily_motion_deg = (extract_orbital_elements l₂).mean_daily_motion_deg) ∧
    (∀ l : String, l.length < 103 → (extract_orbital_elements l).semimajor_axis_au = none) ∧
    (∀ l₁ l₂ : String, 103 ≤ l₁.length → 103 ≤ l₂.length →
      pySlice l₁ 92 103 = pySlice l₂ 92 103 →
      (extract_orbital_elements l₁).semimajor_axis_au = (extract_orbital_elements l₂).semimajor_axis_au) := by
  refine ⟨?_, ?_, ?_, ?_, ?_, ?_, ?_, ?_, ?_, ?_, ?_, ?_, ?_, ?_, ?_, ?_, ?_, ?_, ?_⟩
  · intro l hl
    constructor <;> simp [extract_basic_fields, Nat.not_le.mpr hl]
  · intro l₁ l₂ h1 h2 hsl
    simp only [extract_basic_fields]
    rw [if_pos h1, if_pos h2, hsl]
  · intro l₁ l₂ h1 h2 hsl
    simp only [extract_basic_fields]
    rw [if_pos h1, if_pos h2, hsl]
  · intro l hl
    simp [extract_orbital_elements, Nat.not_le.mpr hl]
  · intro l₁ l₂ h1 h2 hsl
    simp only [extract_orbital_elements]
    rw [if_pos h1, if_pos h2, hsl]
  · intro l hl
    simp [extract_orbital_elements, Nat.not_le.mpr hl]
  · intro l₁ l₂ h1 h2 hsl
    simp only [extract_orbital_elements]
    rw [if_pos h1, if_pos h2, hsl]
  · intro l hl
    simp [extract_orbital_elements, Nat.not_le.mpr hl]
  · intro l₁ l₂ h1 h2 hsl
    simp only [extract_orbital_elements]
    rw [if_pos h1, if_pos h2, hsl]
  · intro l hl
    simp [extract_orbital_elements, Nat.not_le.mpr hl]
  · intro l₁ l₂ h1 h2 hsl
    simp only [extract_orbital_elements]
    rw [if_pos h1, if_pos h2, hsl]
  · intro l hl
    simp [extract_orbital_elements, Nat.not_le.mpr hl]
  · intro l₁ l₂ h1 h2 hsl
    simp only [extract_orbital_elements]
    rw [if_pos h1, if_pos h2, hsl]
  · intro l hl
    simp [extract_orbital_elements, Nat.not_le.mpr hl]
  · intro l₁ l₂ h1 h2 hsl
    simp only [extract_orbital_elements]
    rw [if_pos h1, if_pos h2, hsl]
  · intro l hl
    simp [extract_orbital_elements, Nat.not_le.mpr hl]
  · intro l₁ l₂ h1 h2 hsl
    simp only [extract_orbital_elements]
    rw [if_pos h1, if_pos h2, hsl]
  · intro l hl
    simp [extract_orbital_elements, Nat.not_le.mpr hl]
  · intro l₁ l₂ h1 h2 hsl
    simp only [extract_orbital_elements]
    rw [if_pos h1, if_pos h2, hsl]

/-- C4 witness: the shared-guard clause applied to the 15-character line of the
counterexample, and the epoch clause applied to two 25-character lines that
agree on the epoch column only. -/
theorem field_extraction_independence_witness :
    ((extract_basic_fields ("xxxxxxxx13.44zz")).h = none ∧
      (extract_basic_fields ("xxxxxxxx13.44zz")).g = none) ∧
    (extract_orbital_elements ("AAAAAAAAAAAAAAAAAAAA12345")).epoch_mjd
      = (extract_orbital_elements ("BBBBBBBBBBBBBBBBBBBB12345")).epoch_mjd :=
  ⟨field_extraction_independence.1 ("xxxxxxxx13.44zz") (by decide),
   field_extraction_independence.2.2.2.2.1 ("AAAAAAAAAAAAAAAAAAAA12345")
     ("BBBBBBBBBBBBBBBBBBBB12345") (by decide) (by decide) (by decide)⟩

/-- C3 amended, witness: the theorem applied to the concrete 170-character
line whose designation column holds "???" — the record is kept, not dropped. -/
theorem fallback_designation_resolution_witness :
    processLine (String.mk (List.replicate 166 'x' ++ ['?', '?', '?', ' '])) ≠ none := by
  obtain ⟨r, hr, -, -, -, -⟩ :=
    (fallback_designation_resolution
      (String.mk (List.replicate 166 'x' ++ ['?', '?', '?', ' ']))
      (by decide) (by decide) (by decide)).2 (by decide)
  rw [hr]
  simp

/-- C9 amended: `is_data_line` rejects the empty line, lines empty after
stripping leading/trailing CR/LF, lines starting (after that strip) with `#`
or `---`, and lines of stripped length at most 40; it accepts every other
line — including whitespace-only lines longer than 40 characters (see the
counterexample). In particular it rejects "", "# comment", "--- divider ---"
and a 30-character line, and accepts a 200-character well-formed record. -/
theorem is_data_line_characterization :
    (∀ line : String, (stripCRLF line).length ≤ 40 → is_data_line line = false) ∧
    (∀ line : String, (stripCRLF line).data.head? = some '#' → is_data_line line = false) ∧
    (∀ line : String, (stripCRLF line).data.take 3 = ['-', '-', '-'] →
      is_data_line line = false) ∧
    (∀ line : String, 40 < (stripCRLF line).length →
      (stripCRLF line).data.head? ≠ some '#' →
      (stripCRLF line).data.take 3 ≠ ['-', '-', '-'] →
      is_data_line line = true) ∧
    is_data_line ("") = false ∧
    is_data_line ("# comment") = false ∧
    is_data_line ("--- divider ---") = false ∧
    is_data_line (String.mk (List.replicate 30 'x')) = false ∧
    is_data_line ⟨ceresLine.data.take 200⟩ = true := by
  refine ⟨?_, ?_, ?_, ?_, by decide, by decide, by decide, by decide, by decide⟩
  · intro l hl
    unfold is_data_line
    by_cases h0 : l = ""
    · rw [if_pos h0]
    · rw [if_neg h0]
      by_cases h1 : stripCRLF l = ""
      · rw [if_pos h1]
      · rw [if_neg h1]
        split
        · rfl
        · rfl
        · simp only [decide_eq_false_iff_not]
          omega
  · intro l hh
    unfold is_data_line
    by_cases h0 : l = ""
    · rw [if_pos h0]
    · rw [if_neg h0]
      by_cases h1 : stripCRLF l = ""
      · rw [if_pos h1]
      · rw [if_neg h1]
        split
        · rfl
        · rfl
        · rename_i hnh hnd
          exfalso
          cases hdata : (stripCRLF l).data with
          | nil => rw [hdata] at hh; simp at hh
          | cons a as =>
              rw [hdata] at hh
              simp only [List.head?_cons, Option.some.injEq] at hh
              exact hnh as (by rw [hdata, hh])
  · intro l hd
    unfold is_data_line
    by_cases h0 : l = ""
    · rw [if_pos h0]
    · rw [if_neg h0]
      by_cases h1 : stripCRLF l = ""
      · rw [if_pos h1]
      · rw [if_neg h1]
        split
        · rfl
        · rfl
        · rename_i hnh hnd
          exfalso
          cases hdata : (stripCRLF l).data with
          | nil => rw [hdata] at hd; simp at hd
          | cons a as =>
              cases as with
              | nil => rw [hdata] at hd; simp at hd
              | cons b bs =>
                  cases bs with
                  | nil => rw [hdata] at hd; simp at hd
                  | cons c cs =>
                      rw [hdata] at hd
                      simp only [List.take_succ_cons, List.take_zero,
                        List.cons.injEq, and_true] at hd
                      obtain ⟨ha, hb, hc⟩ := hd
                      exact hnd cs (by rw [hdata, ha, hb, hc])
  · intro l h40 hh hd
    unfold is_data_line
    by_cases h0 : l = ""
    · exfalso
      rw [h0] at h40
      exact absurd h40 (by decide)
    · rw [if_neg h0]
      by_cases h1 : stripCRLF l = ""
      · exfalso
        rw [h1] at h40
        exact absurd h40 (by decide)
      · rw [if_neg h1]
        split
        · rename_i heq
          exact absurd (by rw [heq]; rfl) hh
        · rename_i heq
          exact absurd (by rw [heq]; rfl) hd
        · exact decide_eq_true h40

/-- C9 amended, witness: the rejection clause applied to the 30-character line
and the acceptance clause applied to the Ceres record. -/
theorem is_data_line_characterization_witness :
    is_data_line (String.mk (List.replicate 30 'y')) = false ∧
    is_data_line ceresLine = true :=
  ⟨is_data_line_characterization.1 (String.mk (List.replicate 30 'y')) (by decide),
   is_data_line_characterization.2.2.2.1 ceresLine (by decide) (by decide) (by decide)⟩

/-- C10 witness: the short-line clause applied to "x" and the converse clause
applied to the Ceres record, which the pipeline does buffer. -/
theorem buffered_record_needs_designation_witness :
    processLine ("x") = none ∧
    (170 ≤ ceresLine.length ∧ pyStrip (pySlice ceresLine 166 194) ≠ "") :=
  ⟨(buffered_record_needs_designation ("x")).1 (Or.inl (by decide)),
   (buffered_record_needs_designation ceresLine).2 (by decide)⟩

end MPC
